import Mathlib

/-!
Verification development for the lightsim2grid repository.

Part A embeds `src/lightsim2grid/initGridModel.py`: the function `init`
converts a pandapower network into a sequence of calls on the C++
`GridModel` object.  We embed the network tables, the exact sequence of
`GridModel` method invocations that `init` performs (as a trace of
`ModelOp` values), and the places where the Python layer itself can raise
(pandas `.loc` lookups on missing bus labels, indexing an empty
`ext_grid`).  The C++ `GridModel` and `PandaPowerConverter` are not part
of `src/`; where a claim depends on them they are modelled from the spec
(definitions say so in their doc comment).

Part B embeds `src/pyklu/compute_powerflow.py`: the function `newtonpf`
and the stateful driver `KLU4Pandapower.runpp`.  External pandapower
helpers (`_pd2ppc`, `_get_Sbus`, ...) are excluded collaborators and are
embedded as free constructors of a symbolic value type `Dat`, so that the
theorems are statements about data flow through the source code.
-/

/-- Scalar value as stored in a pandapower table column: a finite rational
or one of the IEEE non-finite floats (`nan`, `+inf`, `-inf`). -/
inductive Val where
  | fin (q : ℚ)
  | nan
  | pinf
  | ninf
deriving DecidableEq, Repr

/-- Embedding of `np.isfinite` on one scalar. -/
def Val.isFinite : Val → Bool
  | .fin _ => true
  | _ => false

/-- IEEE-style addition on table scalars. -/
def Val.add : Val → Val → Val
  | .nan, _ => .nan
  | _, .nan => .nan
  | .pinf, .ninf => .nan
  | .ninf, .pinf => .nan
  | .pinf, _ => .pinf
  | _, .pinf => .pinf
  | .ninf, _ => .ninf
  | _, .ninf => .ninf
  | .fin a, .fin b => .fin (a + b)

/-- IEEE-style negation on table scalars. -/
def Val.neg : Val → Val
  | .fin a => .fin (-a)
  | .nan => .nan
  | .pinf => .ninf
  | .ninf => .pinf

/-- IEEE-style subtraction on table scalars. -/
def Val.sub (a b : Val) : Val := a.add b.neg

/-- IEEE-style multiplication on table scalars (`inf * 0 = nan`). -/
def Val.mul : Val → Val → Val
  | .nan, _ => .nan
  | _, .nan => .nan
  | .fin a, .fin b => .fin (a * b)
  | .pinf, .pinf => .pinf
  | .pinf, .ninf => .ninf
  | .ninf, .pinf => .ninf
  | .ninf, .ninf => .pinf
  | .pinf, .fin b => if 0 < b then .pinf else if b < 0 then .ninf else .nan
  | .ninf, .fin b => if 0 < b then .ninf else if b < 0 then .pinf else .nan
  | .fin a, .pinf => if 0 < a then .pinf else if a < 0 then .ninf else .nan
  | .fin a, .ninf => if 0 < a then .ninf else if a < 0 then .pinf else .nan

/-- Embedding of `np.sum` over a table column (left fold from `0.0`). -/
def Val.sum (l : List Val) : Val := l.foldl Val.add (.fin 0)

/-- Row of the pandapower `line` table (the columns `init` reads). -/
structure LineRow where
  r_ohm_per_km : Val
  x_ohm_per_km : Val
  c_nf_per_km : Val
  g_us_per_km : Val
  length_km : Val
  from_bus : Nat
  to_bus : Nat
  in_service : Bool
deriving DecidableEq, Repr

/-- Row of the pandapower `trafo` table (the columns `init` reads). -/
structure TrafoRow where
  vn_hv_kv : Val
  vn_lv_kv : Val
  vk_percent : Val
  vkr_percent : Val
  sn_mva : Val
  pfe_kw : Val
  i0_percent : Val
  tap_step_percent : Val
  tap_pos : Val
  tap_side : String
  hv_bus : Nat
  lv_bus : Nat
  in_service : Bool
deriving DecidableEq, Repr

/-- Row of the pandapower `shunt` table. -/
structure ShuntRow where
  p_mw : Val
  q_mvar : Val
  bus : Nat
  in_service : Bool
deriving DecidableEq, Repr

/-- Row of the pandapower `load` table. -/
structure LoadRow where
  p_mw : Val
  q_mvar : Val
  bus : Nat
  in_service : Bool
deriving DecidableEq, Repr

/-- Row of the pandapower `gen` table. -/
structure GenRow where
  p_mw : Val
  vm_pu : Val
  min_q_mvar : Val
  max_q_mvar : Val
  bus : Nat
  in_service : Bool
  slack : Bool
deriving DecidableEq, Repr

/-- Row of the pandapower `ext_grid` table. -/
structure ExtGridRow where
  bus : Nat
  vm_pu : Val
deriving DecidableEq, Repr

/-- Row of the pandapower `bus` table.  Per the spec's interface contract,
bus labels are the dense integers `0 .. bus_count - 1`, so the label of a
row is its position and `np.argsort(pp_net.bus.index)` is the identity. -/
structure BusRow where
  vn_kv : Val
deriving DecidableEq, Repr

/-- The pandapower network, restricted to the tables and columns that
`init` reads. -/
structure PPNet where
  sn_mva : Val
  f_hz : Val
  bus : List BusRow
  line : List LineRow
  trafo : List TrafoRow
  shunt : List ShuntRow
  load : List LoadRow
  gen : List GenRow
  ext_grid : List ExtGridRow
deriving DecidableEq, Repr

/-- One method invocation on the C++ `GridModel` object, as performed by
`init`.  The trace of these operations is the observable behaviour of the
Python conversion layer. -/
inductive ModelOp where
  | initBus (vn_kv : List Val) (nbLine nbTrafo : Nat)
  | initPowerlines (r x h : List Val) (fromBus toBus : List Nat)
  | deactivatePowerline (i : Nat)
  | initShunt (p q : List Val) (bus : List Nat)
  | deactivateShunt (i : Nat)
  | initTrafo (r x b tapStepPct tapPos : List Val) (isTapHvSide : List Bool)
      (hvBus lvBus : List Nat)
  | deactivateTrafo (i : Nat)
  | initLoads (p q : List Val) (bus : List Nat)
  | deactivateLoad (i : Nat)
  | initGenerators (p v minQ maxQ : List Val) (bus : List Nat)
  | deactivateGen (i : Nat)
  | changeVGen (ids : List Nat) (v : List Val)
  | addGenSlackbus (ids : List Nat)
deriving DecidableEq, Repr

/-- Errors the Python layer can raise (pandas `KeyError` from a `.loc`
lookup on a missing bus label, `IndexError` from `values[0]` on an empty
`ext_grid`), plus the structural rejection of the modelled C++ layer. -/
inductive PyError where
  | keyError
  | indexError
  | structuralError
deriving DecidableEq, Repr

/-- The C++ `PandaPowerConverter` (its two per-unit conversion routines).
It is an external numeric transform; `init` only forwards its outputs, so
we keep it parametric. -/
structure Converter where
  get_line_param : List Val → List Val → List Val → List Val → List Val → List Val →
      List Val × List Val × List Val
  get_trafo_param : List Val → List Val → List Val → List Val → List Val → List Val →
      List Val → List Val → List Val × List Val × List Val

/-- Embedding of `np.where(mask)[0]` composed with `enumerate`: the
positions (counting from `start`) at which `p` holds, in increasing
order. -/
def npWhereAux (p : α → Bool) : Nat → List α → List Nat
  | _, [] => []
  | i, a :: rest =>
    if p a then i :: npWhereAux p (i + 1) rest else npWhereAux p (i + 1) rest

/-- Positions at which `p` holds, in increasing order, starting from 0. -/
def npWhere (p : α → Bool) (l : List α) : List Nat := npWhereAux p 0 l

/-- Deactivation loop `for id, status in enumerate(col): if not status:
deactivate(id)`, emitting `mk i` for every row (counting from `start`)
whose `alive` flag is false. -/
def deactsAux (mk : Nat → ModelOp) (alive : α → Bool) : Nat → List α → List ModelOp
  | _, [] => []
  | i, a :: rest =>
    if alive a then deactsAux mk alive (i + 1) rest
    else mk i :: deactsAux mk alive (i + 1) rest

/-- Deactivation trace for one element table. -/
def deacts (mk : Nat → ModelOp) (alive : α → Bool) (l : List α) : List ModelOp :=
  deactsAux mk alive 0 l

/-- Lookup `pp_net.bus.loc[b]["vn_kv"]` assuming the label `b` is in
range (the out-of-range case is rejected before this is used). -/
def vnAt (net : PPNet) (b : Nat) : Val := (net.bus.getD b ⟨Val.fin 0⟩).vn_kv

/-- Arguments and result of the `converter.get_line_param` call in `init`
(per-km columns multiplied by `length_km`, endpoint base voltages looked
up through `bus.loc`). -/
def lineParams (conv : Converter) (net : PPNet) : List Val × List Val × List Val :=
  conv.get_line_param
    (net.line.map fun l => Val.mul l.r_ohm_per_km l.length_km)
    (net.line.map fun l => Val.mul l.x_ohm_per_km l.length_km)
    (net.line.map fun l => Val.mul l.c_nf_per_km l.length_km)
    (net.line.map fun l => Val.mul l.g_us_per_km l.length_km)
    (net.line.map fun l => vnAt net l.from_bus)
    (net.line.map fun l => vnAt net l.to_bus)

/-- Arguments and result of the `converter.get_trafo_param` call in
`init`. -/
def trafoParams (conv : Converter) (net : PPNet) : List Val × List Val × List Val :=
  conv.get_trafo_param
    (net.trafo.map fun t => t.vn_hv_kv)
    (net.trafo.map fun t => t.vn_lv_kv)
    (net.trafo.map fun t => t.vk_percent)
    (net.trafo.map fun t => t.vkr_percent)
    (net.trafo.map fun t => t.sn_mva)
    (net.trafo.map fun t => t.pfe_kw)
    (net.trafo.map fun t => t.i0_percent)
    (net.trafo.map fun t => vnAt net t.lv_bus)

/-- Embedding of `tap[~np.isfinite(tap)] = 0.`: a non-finite tap
parameter is replaced by `0.0`, a finite one is kept. -/
def repairTap (v : Val) : Val := if v.isFinite then v else .fin 0

/-- Embedding of lines 106-107 of `initGridModel.py`:
`is_tap_hv_side = tap_side == "hv"` followed by the masked assignment
`is_tap_hv_side[~np.isfinite(tap_pos)] = True`, where `tap_pos` has
already been repaired on line 104. -/
def isTapHvSide (net : PPNet) : List Bool :=
  List.zipWith (fun m s => m || s)
    ((net.trafo.map fun t => repairTap t.tap_pos).map fun v => !v.isFinite)
    (net.trafo.map fun t => t.tap_side == "hv")

/-- Default generator row used to embed positional indexing of the
`vm_pu` column by an index array. -/
def genDefault : GenRow :=
  { p_mw := .fin 0, vm_pu := .fin 0, min_q_mvar := .fin 0, max_q_mvar := .fin 0
    bus := 0, in_service := true, slack := false }

/-- Trace of `GridModel` calls made by `init` before the slack-bus
section: `init_bus`, then each element table initialized in full at its
positional indices, each table's deactivation loop following its
initialization call. -/
def baseOps (conv : Converter) (net : PPNet) : List ModelOp :=
  [.initBus (net.bus.map fun b => b.vn_kv) net.line.length net.trafo.length,
   .initPowerlines (lineParams conv net).1 (lineParams conv net).2.1
     (lineParams conv net).2.2
     (net.line.map fun l => l.from_bus) (net.line.map fun l => l.to_bus)]
  ++ deacts ModelOp.deactivatePowerline (fun l : LineRow => l.in_service) net.line
  ++ [.initShunt (net.shunt.map fun s => s.p_mw) (net.shunt.map fun s => s.q_mvar)
        (net.shunt.map fun s => s.bus)]
  ++ deacts ModelOp.deactivateShunt (fun s : ShuntRow => s.in_service) net.shunt
  ++ [.initTrafo (trafoParams conv net).1 (trafoParams conv net).2.1
        (trafoParams conv net).2.2
        (net.trafo.map fun t => repairTap t.tap_step_percent)
        (net.trafo.map fun t => repairTap t.tap_pos)
        (isTapHvSide net)
        (net.trafo.map fun t => t.hv_bus) (net.trafo.map fun t => t.lv_bus)]
  ++ deacts ModelOp.deactivateTrafo (fun t : TrafoRow => t.in_service) net.trafo
  ++ [.initLoads (net.load.map fun l => l.p_mw) (net.load.map fun l => l.q_mvar)
        (net.load.map fun l => l.bus)]
  ++ deacts ModelOp.deactivateLoad (fun l : LoadRow => l.in_service) net.load
  ++ [.initGenerators (net.gen.map fun g => g.p_mw) (net.gen.map fun g => g.vm_pu)
        (net.gen.map fun g => g.min_q_mvar) (net.gen.map fun g => g.max_q_mvar)
        (net.gen.map fun g => g.bus)]
  ++ deacts ModelOp.deactivateGen (fun g : GenRow => g.in_service) net.gen

/-- The synthetic slack generator section of `init` (lines 156-163): the
`gen` columns re-sent with one appended generator at the first ext_grid
bus, active power `sum(load.p_mw) - sum(gen.p_mw)`, voltage setpoint the
ext_grid's `vm_pu`, and reactive limits `-999999` / `+99999`. -/
def fabricatedGenOp (net : PPNet) (eg : ExtGridRow) : ModelOp :=
  .initGenerators
    (net.gen.map (fun g => g.p_mw) ++
      [Val.sub (Val.sum (net.load.map fun l => l.p_mw))
        (Val.sum (net.gen.map fun g => g.p_mw))])
    (net.gen.map (fun g => g.vm_pu) ++ [eg.vm_pu])
    (net.gen.map (fun g => g.min_q_mvar) ++ [Val.fin (-999999)])
    (net.gen.map (fun g => g.max_q_mvar) ++ [Val.fin 99999])
    (net.gen.map (fun g => g.bus) ++ [eg.bus])

/-- Embedding of `init` from `src/lightsim2grid/initGridModel.py`.  The
result is the trace of `GridModel` method calls, or the Python exception:
a pandas `KeyError` when a line's `from_bus`/`to_bus` or a trafo's
`lv_bus` is not a bus label (`bus.loc[...]` on lines 59-60 and 70), an
`IndexError` when the slack-bus fallback reads `ext_grid["bus"].values[0]`
on an empty `ext_grid` (line 152). -/
def init (conv : Converter) (net : PPNet) : Except PyError (List ModelOp) :=
  if !(net.line.all fun l =>
        decide (l.from_bus < net.bus.length) && decide (l.to_bus < net.bus.length)) then
    .error .keyError
  else if !(net.trafo.all fun t => decide (t.lv_bus < net.bus.length)) then
    .error .keyError
  else if net.gen.any (fun g => g.slack) then
    .ok (baseOps conv net ++
      [.changeVGen (npWhere (fun g => g.slack) net.gen)
          ((npWhere (fun g => g.slack) net.gen).map fun i =>
            (net.gen.getD i genDefault).vm_pu),
       .addGenSlackbus (npWhere (fun g => g.slack) net.gen)])
  else
    match net.ext_grid with
    | [] => .error .indexError
    | eg :: _ =>
      if net.gen.any (fun g => g.bus == eg.bus) then
        .ok (baseOps conv net ++
          [.addGenSlackbus (npWhere (fun g => g.bus == eg.bus) net.gen)])
      else
        .ok (baseOps conv net ++
          [fabricatedGenOp net eg, .addGenSlackbus [net.gen.length]])

/-- The generator identifiers that `init` passes to `add_gen_slackbus`:
the positions of all slack-flagged generators when any exist, otherwise
the positions of all generators on the first ext_grid bus, otherwise the
position of the fabricated synthetic generator. -/
def expectedSlackIds (net : PPNet) : List Nat :=
  if net.gen.any (fun g => g.slack) then npWhere (fun g => g.slack) net.gen
  else
    match net.ext_grid with
    | [] => []
    | eg :: _ =>
      if net.gen.any (fun g => g.bus == eg.bus) then
        npWhere (fun g => g.bus == eg.bus) net.gen
      else [net.gen.length]

/-- Modelled from the spec: build-time state of the C++ `GridModel`
(not under `src/`).  The model only needs to remember the bus count that
`init_bus` established, which the structural checks are made against. -/
structure GM where
  nbus : Nat
deriving DecidableEq, Repr

/-- Modelled from the spec: the structural validation the C++ `GridModel`
applies to one incoming call — "malformed topology (index out of range,
non-finite required parameter that is not explicitly defaulted) — raised
at model-build time".  Tap parameters carry no finiteness check because
the Python layer explicitly defaults them to zero. -/
def stepGM (g : GM) : ModelOp → Except PyError GM
  | .initBus vn _ _ =>
    if vn.all (fun v => v.isFinite) then .ok ⟨vn.length⟩ else .error .structuralError
  | .initPowerlines r x h f t =>
    if r.all (fun v => v.isFinite) && x.all (fun v => v.isFinite) &&
       h.all (fun v => v.isFinite) && f.all (fun b => decide (b < g.nbus)) &&
       t.all (fun b => decide (b < g.nbus)) then .ok g
    else .error .structuralError
  | .initShunt p q b =>
    if p.all (fun v => v.isFinite) && q.all (fun v => v.isFinite) &&
       b.all (fun c => decide (c < g.nbus)) then .ok g
    else .error .structuralError
  | .initTrafo r x b _ _ _ hv lv =>
    if r.all (fun v => v.isFinite) && x.all (fun v => v.isFinite) &&
       b.all (fun v => v.isFinite) && hv.all (fun c => decide (c < g.nbus)) &&
       lv.all (fun c => decide (c < g.nbus)) then .ok g
    else .error .structuralError
  | .initLoads p q b =>
    if p.all (fun v => v.isFinite) && q.all (fun v => v.isFinite) &&
       b.all (fun c => decide (c < g.nbus)) then .ok g
    else .error .structuralError
  | .initGenerators p v mn mx b =>
    if p.all (fun w => w.isFinite) && v.all (fun w => w.isFinite) &&
       mn.all (fun w => w.isFinite) && mx.all (fun w => w.isFinite) &&
       b.all (fun c => decide (c < g.nbus)) then .ok g
    else .error .structuralError
  | _ => .ok g

/-- Modelled from the spec: running a trace of calls against the C++
`GridModel`, stopping at the first structural rejection. -/
def runGM (g : GM) : List ModelOp → Except PyError GM
  | [] => .ok g
  | op :: rest =>
    match stepGM g op with
    | .error e => .error e
    | .ok g' => runGM g' rest

/-- Building a `GridModel` from a pandapower network: the Python layer
`init` produces the call trace (or raises), and the modelled C++ layer
replays it with its structural checks. -/
def buildModel (conv : Converter) (net : PPNet) : Except PyError GM :=
  match init conv net with
  | .error e => .error e
  | .ok ops => runGM ⟨0⟩ ops

/-- Malformedness of an input network in the sense of the spec's failure
policy: a non-finite required electrical parameter (bus base voltage,
line series/shunt/length parameters, transformer nameplate parameters,
shunt/load/generator injection parameters — tap parameters excluded, as
they are explicitly defaulted), or a branch endpoint that is not a bus
label. -/
def PPNet.malformed (net : PPNet) : Bool :=
  net.bus.any (fun b => !b.vn_kv.isFinite) ||
  net.line.any (fun l =>
    !(l.r_ohm_per_km.isFinite && l.x_ohm_per_km.isFinite && l.c_nf_per_km.isFinite &&
      l.g_us_per_km.isFinite && l.length_km.isFinite) ||
    !(decide (l.from_bus < net.bus.length)) || !(decide (l.to_bus < net.bus.length))) ||
  net.trafo.any (fun t =>
    !(t.vn_hv_kv.isFinite && t.vn_lv_kv.isFinite && t.vk_percent.isFinite &&
      t.vkr_percent.isFinite && t.sn_mva.isFinite && t.pfe_kw.isFinite &&
      t.i0_percent.isFinite) ||
    !(decide (t.hv_bus < net.bus.length)) || !(decide (t.lv_bus < net.bus.length))) ||
  net.shunt.any (fun s => !(s.p_mw.isFinite && s.q_mvar.isFinite)) ||
  net.load.any (fun l => !(l.p_mw.isFinite && l.q_mvar.isFinite)) ||
  net.gen.any (fun g =>
    !(g.p_mw.isFinite && g.vm_pu.isFinite && g.min_q_mvar.isFinite &&
      g.max_q_mvar.isFinite))

/-- Alignment property of the external per-unit line conversion (C++
`get_line_param`, not under `src/`): on equal-length inputs its three
outputs are positionally aligned with the inputs, and an output entry can
only be finite if the corresponding series/shunt inputs are finite (the
conversion is a numeric transform, so IEEE non-finiteness propagates). -/
def LinePropagates (conv : Converter) : Prop :=
  ∀ rl xl cl gl vf vt, xl.length = rl.length → cl.length = rl.length →
    gl.length = rl.length →
    ((conv.get_line_param rl xl cl gl vf vt).1.length = rl.length ∧
     (conv.get_line_param rl xl cl gl vf vt).2.1.length = rl.length ∧
     (conv.get_line_param rl xl cl gl vf vt).2.2.length = rl.length) ∧
    ∀ i, i < rl.length →
      ((conv.get_line_param rl xl cl gl vf vt).1.getD i (.fin 0)).isFinite = true →
      ((conv.get_line_param rl xl cl gl vf vt).2.1.getD i (.fin 0)).isFinite = true →
      ((conv.get_line_param rl xl cl gl vf vt).2.2.getD i (.fin 0)).isFinite = true →
      (rl.getD i (.fin 0)).isFinite = true ∧ (xl.getD i (.fin 0)).isFinite = true ∧
      (cl.getD i (.fin 0)).isFinite = true ∧ (gl.getD i (.fin 0)).isFinite = true

/-- Alignment property of the external per-unit transformer conversion
(C++ `get_trafo_param`, not under `src/`), analogous to
`LinePropagates`. -/
def TrafoPropagates (conv : Converter) : Prop :=
  ∀ vh vl vk vkr sn pfe i0 vn, vl.length = vh.length → vk.length = vh.length →
    vkr.length = vh.length → sn.length = vh.length → pfe.length = vh.length →
    i0.length = vh.length →
    ((conv.get_trafo_param vh vl vk vkr sn pfe i0 vn).1.length = vh.length ∧
     (conv.get_trafo_param vh vl vk vkr sn pfe i0 vn).2.1.length = vh.length ∧
     (conv.get_trafo_param vh vl vk vkr sn pfe i0 vn).2.2.length = vh.length) ∧
    ∀ i, i < vh.length →
      ((conv.get_trafo_param vh vl vk vkr sn pfe i0 vn).1.getD i (.fin 0)).isFinite = true →
      ((conv.get_trafo_param vh vl vk vkr sn pfe i0 vn).2.1.getD i (.fin 0)).isFinite = true →
      ((conv.get_trafo_param vh vl vk vkr sn pfe i0 vn).2.2.getD i (.fin 0)).isFinite = true →
      (vh.getD i (.fin 0)).isFinite = true ∧ (vl.getD i (.fin 0)).isFinite = true ∧
      (vk.getD i (.fin 0)).isFinite = true ∧ (vkr.getD i (.fin 0)).isFinite = true ∧
      (sn.getD i (.fin 0)).isFinite = true ∧ (pfe.getD i (.fin 0)).isFinite = true ∧
      (i0.getD i (.fin 0)).isFinite = true

/-!
Part B: `src/pyklu/compute_powerflow.py`.
-/

/-- Symbolic value produced by the excluded pandapower collaborators and
by the Python-level computations of `compute_powerflow.py`.  Each
constructor records one external transformation applied to its argument,
so equality of `Dat` terms is equality of the data-flow history. -/
inductive Dat where
  | inp (id : Nat)
  | pd2ppc (net : Dat)
  | runDcPf (ppci : Dat)
  | getSbus (ppci : Dat)
  | v0Of (ppci : Dat)
  | pvOf (ppci : Dat)
  | pqOf (ppci : Dat)
  | ybusOf (ppci : Dat)
  | csc (m : Dat)
  | polar (vm va : Dat)
deriving DecidableEq, Repr

/-- Argument tuple of one `KLUSolver.solve(Ybus, V, Sbus, pv, pq,
max_it, tol)` invocation. -/
structure SolveArgs where
  ybus : Dat
  v : Dat
  sbus : Dat
  pv : Dat
  pq : Dat
  maxIt : Nat
  tol : ℚ
deriving DecidableEq, Repr

/-- Modelled from the spec: the C++ `KLUSolver` (not under `src/`).  Per
the spec its `solve` runs to a terminal state and exposes results —
voltage magnitudes/angles, the last Jacobian, a convergence flag and an
iteration count — "results, not exceptions".  The outputs are arbitrary
functions of the solver's internal state and the solve arguments;
`reset()` and fresh construction both give internal state `0`. -/
structure KLUBehavior where
  vmOut : Nat → SolveArgs → Dat
  vaOut : Nat → SolveArgs → Dat
  jOut : Nat → SolveArgs → Dat
  convergedOut : Nat → SolveArgs → Bool
  nbIterOut : Nat → SolveArgs → Nat
  nextInternal : Nat → SolveArgs → Nat

/-- The entries of `net["_options"]` that `compute_powerflow.py` reads
(the options dictionary is produced by the external
`_init_runpp_options`). -/
structure Options where
  max_iteration : Nat
  tolerance_mva : ℚ
  init_va_degree : String
  enforce_q_lims : Bool
deriving DecidableEq, Repr

/-- Mutable instance state of `KLU4Pandapower` (`self.solver`, `self.V`,
`self.Ybus`, `self.pv`, `self.pq`, `self.ppci`); all data fields start as
`None` in `__init__` and the solver starts freshly constructed. -/
structure KLUState where
  solverInternal : Nat
  V : Option Dat
  Ybus : Option Dat
  pv : Option Dat
  pq : Option Dat
  ppci : Option Dat
deriving DecidableEq, Repr

/-- The state `__init__` leaves behind. -/
def KLUState.initial : KLUState :=
  { solverInternal := 0, V := none, Ybus := none, pv := none, pq := none, ppci := none }

/-- Observable invocation on the `KLUSolver` instance during one `runpp`
call. -/
inductive SolverEv where
  | reset
  | solve (a : SolveArgs)
deriving DecidableEq, Repr

/-- Exceptions `runpp` can raise: the explicit
`NotImplementedError("enforce_q_lims not yet implemented")`, and the
`TypeError` that follows from using the still-`None` instance fields when
the first call is made with `need_reset=False`. -/
inductive RunErr where
  | notImplementedError
  | noneTypeError
deriving DecidableEq, Repr

/-- Embedding of `KLU4Pandapower.runpp`.  It returns the trace of
`KLUSolver` invocations together with the updated instance state or the
raised exception.  Faithful points: `self.ppci` is refreshed from the net
by `_pd2ppc` on every call (line 111); the DC initialization and the
`enforce_q_lims` check run only under `need_reset` (lines 128-135), the
check after the DC step; with `need_reset` the solver is `reset()` and
`self.V = V0`, otherwise the previous `self.V`, `self.Ybus`, `self.pv`,
`self.pq` are reused while `Sbus` is recomputed from the fresh ppci
(line 147); `self.Ybus` is passed through `sparse.csc_matrix` on every
call (line 153); after solving, `self.V = Vm * exp(1j * Va)` from the
solver's outputs (lines 168-170). -/
def runpp (beh : KLUBehavior) (st : KLUState) (net : Dat) (opts : Options)
    (needReset : Bool) : List SolverEv × Except RunErr KLUState :=
  let ppci0 := Dat.pd2ppc net
  if needReset then
    let ppci1 := if opts.init_va_degree == "dc" then Dat.runDcPf ppci0 else ppci0
    if opts.enforce_q_lims then ([], .error .notImplementedError)
    else
      let v0 := Dat.v0Of ppci1
      let pv := Dat.pvOf ppci1
      let pq := Dat.pqOf ppci1
      let ybus := Dat.ybusOf ppci1
      let sbus := Dat.getSbus ppci1
      let ybusC := Dat.csc ybus
      let args : SolveArgs :=
        { ybus := ybusC, v := v0, sbus := sbus, pv := pv, pq := pq
          maxIt := opts.max_iteration, tol := opts.tolerance_mva }
      let newV := Dat.polar (beh.vmOut 0 args) (beh.vaOut 0 args)
      ([.reset, .solve args],
       .ok { solverInternal := beh.nextInternal 0 args, V := some newV
             Ybus := some ybusC, pv := some pv, pq := some pq, ppci := some ppci1 })
  else
    match st.V, st.Ybus, st.pv, st.pq with
    | some v, some ybusPrev, some pv, some pq =>
      let sbus := Dat.getSbus ppci0
      let ybusC := Dat.csc ybusPrev
      let args : SolveArgs :=
        { ybus := ybusC, v := v, sbus := sbus, pv := pv, pq := pq
          maxIt := opts.max_iteration, tol := opts.tolerance_mva }
      let newV := Dat.polar (beh.vmOut st.solverInternal args) (beh.vaOut st.solverInternal args)
      ([.solve args],
       .ok { solverInternal := beh.nextInternal st.solverInternal args, V := some newV
             Ybus := some ybusC, pv := some pv, pq := some pq, ppci := some ppci0 })
    | _, _, _, _ => ([], .error .noneTypeError)

/-- Argument tuple of the module-level function
`newtonpf(Ybus, V, Sbus, pv, pq, ppci, options)`. -/
structure NpfArgs where
  Ybus : Dat
  V : Dat
  Sbus : Dat
  pv : Dat
  pq : Dat
  ppci : Dat
deriving DecidableEq, Repr

/-- Argument tuple that `newtonpf` hands to `solver.solve`: the Ybus
argument passed through `sparse.csc_matrix` (line 31), the given initial
voltage, injections, bus classification, and the two options entries it
reads. -/
def npfSolveArgs (a : NpfArgs) (opts : Options) : SolveArgs :=
  { ybus := Dat.csc a.Ybus, v := a.V, sbus := a.Sbus, pv := a.pv, pq := a.pq
    maxIt := opts.max_iteration, tol := opts.tolerance_mva }

/-- Embedding of the module-level `newtonpf`.  The `world` parameter
stands for any ambient mutable state a stateful implementation could read
(for instance a long-lived solver instance with internal state carried
over from earlier solves); the source constructs a fresh `KLUSolver()`
instead, so the body ignores `world` and uses internal state `0`.  The
result is the returned 4-tuple `(V, converged, iterations, J)` with
`V = Vm * exp(1j * Va)`. -/
def newtonpf (beh : KLUBehavior) (world : Nat) (a : NpfArgs) (opts : Options) :
    Except RunErr (Dat × Bool × Nat × Dat) :=
  let args : SolveArgs := npfSolveArgs a opts
  .ok (Dat.polar (beh.vmOut 0 args) (beh.vaOut 0 args),
       beh.convergedOut 0 args, beh.nbIterOut 0 args, beh.jOut 0 args)

/-- Whether a `GridModel` call is one of the five `deactivate_*`
operations. -/
def ModelOp.isDeactivate : ModelOp → Bool
  | .deactivatePowerline _ => true
  | .deactivateShunt _ => true
  | .deactivateTrafo _ => true
  | .deactivateLoad _ => true
  | .deactivateGen _ => true
  | _ => false

/-!
Concrete fixtures used by the witness theorems.
-/

/-- Concrete converter used in witnesses: a numeric transform that keeps
inputs positionally aligned and propagates IEEE non-finiteness (the first
two outputs forward one input column, the third folds the remaining
columns with IEEE addition). -/
def cId : Converter where
  get_line_param := fun r x c g _ _ => (r, x, List.zipWith Val.add c g)
  get_trafo_param := fun vh vl vk vkr sn pfe i0 _ =>
    (vk, vkr,
     List.zipWith Val.add vh
       (List.zipWith Val.add vl
         (List.zipWith Val.add sn (List.zipWith Val.add pfe i0))))

/-- Witness network for the synthetic-slack path: one bus, one load of
5 MW, no generators, one ext_grid entry at bus 0 with setpoint 1.0. -/
def wNet1 : PPNet where
  sn_mva := .fin 1
  f_hz := .fin 50
  bus := [⟨.fin 110⟩]
  line := []
  trafo := []
  shunt := []
  load := [{ p_mw := .fin 5, q_mvar := .fin 1, bus := 0, in_service := true }]
  gen := []
  ext_grid := [{ bus := 0, vm_pu := .fin 1 }]

/-- Malformed witness network: like `wNet1` but with a NaN load active
power. -/
def wNetC3 : PPNet where
  sn_mva := .fin 1
  f_hz := .fin 50
  bus := [⟨.fin 110⟩]
  line := []
  trafo := []
  shunt := []
  load := [{ p_mw := .nan, q_mvar := .fin 1, bus := 0, in_service := true }]
  gen := []
  ext_grid := [{ bus := 0, vm_pu := .fin 1 }]

/-- Witness network with two slack-flagged generators on the same bus. -/
def wNetC7 : PPNet where
  sn_mva := .fin 1
  f_hz := .fin 50
  bus := [⟨.fin 110⟩]
  line := []
  trafo := []
  shunt := []
  load := []
  gen := [{ p_mw := .fin 10, vm_pu := .fin 1, min_q_mvar := .fin (-5), max_q_mvar := .fin 5
            bus := 0, in_service := true, slack := true },
          { p_mw := .fin 20, vm_pu := .fin 1, min_q_mvar := .fin (-5), max_q_mvar := .fin 5
            bus := 0, in_service := true, slack := true }]
  ext_grid := []

/-- Witness transformer whose tap parameters are NaN and whose tap side
is the LV side. -/
def wTrafo : TrafoRow where
  vn_hv_kv := .fin 110
  vn_lv_kv := .fin 20
  vk_percent := .fin 10
  vkr_percent := .fin 1
  sn_mva := .fin 40
  pfe_kw := .fin 0
  i0_percent := .fin 0
  tap_step_percent := .nan
  tap_pos := .nan
  tap_side := "lv"
  hv_bus := 0
  lv_bus := 0
  in_service := true

/-- Witness network with the single NaN-tap transformer `wTrafo`. -/
def wNetT : PPNet where
  sn_mva := .fin 1
  f_hz := .fin 50
  bus := [⟨.fin 110⟩]
  line := []
  trafo := [wTrafo]
  shunt := []
  load := []
  gen := []
  ext_grid := [{ bus := 0, vm_pu := .fin 1 }]

/-- Concrete solver behaviour used in witnesses. -/
def cBeh : KLUBehavior where
  vmOut := fun _ _ => .inp 100
  vaOut := fun _ _ => .inp 101
  jOut := fun _ _ => .inp 102
  convergedOut := fun _ _ => true
  nbIterOut := fun _ _ => 3
  nextInternal := fun _ _ => 7

/-- Concrete `KLU4Pandapower` instance state with all fields populated,
as left behind by an earlier successful call. -/
def wSt : KLUState where
  solverInternal := 7
  V := some (.inp 1)
  Ybus := some (.inp 2)
  pv := some (.inp 3)
  pq := some (.inp 4)
  ppci := some (.inp 5)

/-- Concrete options with reactive-limit enforcement off. -/
def wOpts : Options where
  max_iteration := 10
  tolerance_mva := 1 / 100000000
  init_va_degree := "auto"
  enforce_q_lims := false

/-- Concrete options with reactive-limit enforcement requested. -/
def wOptsQ : Options where
  max_iteration := 10
  tolerance_mva := 1 / 100000000
  init_va_degree := "auto"
  enforce_q_lims := true

/-- The solve arguments of the first (cold) witness call to `runpp`. -/
def wArgs1 : SolveArgs where
  ybus := .csc (.ybusOf (.pd2ppc (.inp 0)))
  v := .v0Of (.pd2ppc (.inp 0))
  sbus := .getSbus (.pd2ppc (.inp 0))
  pv := .pvOf (.pd2ppc (.inp 0))
  pq := .pqOf (.pd2ppc (.inp 0))
  maxIt := 10
  tol := 1 / 100000000

/-- The instance state after the first (cold) witness call to `runpp`. -/
def wSt1 : KLUState where
  solverInternal := 7
  V := some (.polar (.inp 100) (.inp 101))
  Ybus := some (.csc (.ybusOf (.pd2ppc (.inp 0))))
  pv := some (.pvOf (.pd2ppc (.inp 0)))
  pq := some (.pqOf (.pd2ppc (.inp 0)))
  ppci := some (.pd2ppc (.inp 0))

/-- Concrete arguments for `newtonpf` witnesses. -/
def wNpfA : NpfArgs where
  Ybus := .inp 20
  V := .inp 21
  Sbus := .inp 22
  pv := .inp 23
  pq := .inp 24
  ppci := .inp 25

/-- The trace `init` produces on `wNet1` (synthetic-slack path). -/
def wOps1 : List ModelOp :=
  baseOps cId wNet1 ++
    [fabricatedGenOp wNet1 ⟨0, Val.fin 1⟩, .addGenSlackbus [0]]

/-- The trace `init` produces on `wNetT` (synthetic-slack path). -/
def wOpsT : List ModelOp :=
  baseOps cId wNetT ++
    [fabricatedGenOp wNetT ⟨0, Val.fin 1⟩, .addGenSlackbus [0]]

/-!
Lemmas about scalars and lists.
-/

/-- A finite IEEE sum has finite operands. -/
theorem Val.isFinite_of_add {a b : Val} (h : (Val.add a b).isFinite = true) :
    a.isFinite = true ∧ b.isFinite = true := by
  cases a <;> cases b <;> simp_all [Val.add, Val.isFinite]

/-- A finite IEEE product has finite factors. -/
theorem Val.isFinite_of_mul {a b : Val} (h : (Val.mul a b).isFinite = true) :
    a.isFinite = true ∧ b.isFinite = true := by
  cases a <;> cases b <;>
    simp_all only [Val.mul, Val.isFinite, and_self] <;>
    split_ifs at h <;> simp_all [Val.isFinite]

/-- The repaired tap parameter is always finite. -/
theorem repairTap_isFinite (v : Val) : (repairTap v).isFinite = true := by
  cases v <;> simp [repairTap, Val.isFinite]

/-- Positional read of a mapped column. -/
theorem getD_map_lt {l : List α} (f : α → β) {i : Nat} (hi : i < l.length) (d : β) :
    (l.map f).getD i d = f (l.get ⟨i, hi⟩) := by
  simp [List.getD_eq_getElem?_getD, List.getElem?_map, List.getElem?_eq_getElem hi]

/-- Positional read of an elementwise combination of two columns. -/
theorem getD_zipWith_lt {f : α → β → γ} {a : List α} {b : List β} {i : Nat}
    (ha : i < a.length) (hb : i < b.length) (da : α) (db : β) (d : γ) :
    (List.zipWith f a b).getD i d = f (a.getD i da) (b.getD i db) := by
  simp [List.getD_eq_getElem?_getD, List.getElem?_zipWith,
    List.getElem?_eq_getElem ha, List.getElem?_eq_getElem hb]

/-- A positional read of a column that passes an `all` check satisfies the
checked predicate. -/
theorem all_getD {l : List α} {p : α → Bool} (h : l.all p = true) {i : Nat}
    (hi : i < l.length) (d : α) : p (l.getD i d) = true := by
  have hmem : l.getD i d ∈ l := by
    simp only [List.getD_eq_getElem?_getD, List.getElem?_eq_getElem hi, Option.getD_some]
    exact List.getElem_mem hi
  exact List.all_eq_true.1 h _ hmem

/-- The index list `npWhereAux` has as many entries as rows satisfying the
predicate. -/
theorem npWhereAux_length (p : α → Bool) :
    ∀ (i : Nat) (l : List α), (npWhereAux p i l).length = l.countP p := by
  intro i l
  induction l generalizing i with
  | nil => simp [npWhereAux, List.countP_nil]
  | cons a as ih =>
    by_cases hp : p a <;>
      simp [npWhereAux, hp, List.countP_cons, ih]

/-- The `np.where` index list has as many entries as rows satisfying the
predicate. -/
theorem npWhere_length (p : α → Bool) (l : List α) :
    (npWhere p l).length = l.countP p :=
  npWhereAux_length p 0 l

/-- Every operation in a deactivation segment is an application of its
constructor. -/
theorem mem_deactsAux {mk : Nat → ModelOp} {alive : α → Bool} {op : ModelOp} :
    ∀ {i : Nat} {l : List α}, op ∈ deactsAux mk alive i l → ∃ j, op = mk j := by
  intro i l
  induction l generalizing i with
  | nil => simp [deactsAux]
  | cons a as ih =>
    intro h
    unfold deactsAux at h
    split at h
    · exact ih h
    · rcases List.mem_cons.1 h with h | h
      · exact ⟨_, h⟩
      · exact ih h

/-- Membership in a deactivation segment, for an injective constructor:
exactly the out-of-service row positions appear. -/
theorem mem_deactsAux_iff {mk : Nat → ModelOp} {alive : α → Bool}
    (hinj : ∀ {a b : Nat}, mk a = mk b → a = b) :
    ∀ {i : Nat} {l : List α} {j : Nat},
      (mk j ∈ deactsAux mk alive i l) ↔
        ∃ k, ∃ hk : k < l.length, alive (l.get ⟨k, hk⟩) = false ∧ j = i + k := by
  intro i l
  induction l generalizing i with
  | nil => simp [deactsAux]
  | cons a as ih =>
    intro j
    unfold deactsAux
    constructor
    · intro h
      split at h
      next hcond =>
        rcases ih.1 h with ⟨k, hk, hal, hj⟩
        exact ⟨k + 1, by simpa using hk, by simpa using hal, by omega⟩
      next hcond =>
        rcases List.mem_cons.1 h with h | h
        · refine ⟨0, by simp, ?_, ?_⟩
          · simpa using Bool.eq_false_iff.2 hcond
          · simpa using hinj h
        · rcases ih.1 h with ⟨k, hk, hal, hj⟩
          exact ⟨k + 1, by simpa using hk, by simpa using hal, by omega⟩
    · rintro ⟨k, hk, hal, rfl⟩
      cases k with
      | zero =>
        simp only [List.get] at hal
        simp [hal, List.mem_cons]
      | succ k' =>
        have hk' : k' < as.length := by simpa using hk
        have hmem : mk (i + 1 + k') ∈ deactsAux mk alive (i + 1) as :=
          ih.2 ⟨k', hk', by simpa using hal, rfl⟩
        have hidx : i + (k' + 1) = i + 1 + k' := by omega
        split
        · rw [hidx]; exact hmem
        · rw [hidx]; exact List.mem_cons_of_mem _ hmem

/-- The masked override on line 107 of `initGridModel.py` is a no-op:
since `tap_pos` was repaired on line 104, its non-finite mask is all
false, and the hv-side flags are exactly `tap_side == "hv"`. -/
theorem isTapHvSide_eq (net : PPNet) :
    isTapHvSide net = net.trafo.map (fun t => t.tap_side == "hv") := by
  unfold isTapHvSide
  generalize net.trafo = l
  induction l with
  | nil => rfl
  | cons t ts ih =>
    simp only [List.map_cons, List.zipWith_cons_cons, repairTap_isFinite,
      Bool.not_true, Bool.false_or]
    rw [ih]

/-!
Lemmas about the modelled `GridModel` replay.
-/

/-- Inverting one successful replay step. -/
theorem runGM_cons_ok {g : GM} {op : ModelOp} {rest : List ModelOp} {m : GM}
    (h : runGM g (op :: rest) = .ok m) :
    ∃ g', stepGM g op = .ok g' ∧ runGM g' rest = .ok m := by
  unfold runGM at h
  cases hs : stepGM g op with
  | error e => rw [hs] at h; exact absurd h (by simp)
  | ok g' => rw [hs] at h; exact ⟨g', rfl, h⟩

/-- Inverting a successful replay of a concatenation. -/
theorem runGM_append_ok {g : GM} {xs ys : List ModelOp} {m : GM}
    (h : runGM g (xs ++ ys) = .ok m) :
    ∃ g', runGM g xs = .ok g' ∧ runGM g' ys = .ok m := by
  induction xs generalizing g with
  | nil => exact ⟨g, rfl, h⟩
  | cons x xs ih =>
    rw [List.cons_append] at h
    rcases runGM_cons_ok h with ⟨g1, hs, h1⟩
    rcases ih h1 with ⟨g2, hxs, hys⟩
    refine ⟨g2, ?_, hys⟩
    unfold runGM
    rw [hs]
    exact hxs

/-- Replaying a deactivation segment never changes the model state. -/
theorem runGM_deactsAux (g : GM) (mk : Nat → ModelOp) (alive : α → Bool)
    (hmk : ∀ (g' : GM) (j : Nat), stepGM g' (mk j) = .ok g') :
    ∀ (i : Nat) (l : List α), runGM g (deactsAux mk alive i l) = .ok g := by
  intro i l
  induction l generalizing i with
  | nil => rfl
  | cons a as ih =>
    unfold deactsAux
    split
    · exact ih _
    · unfold runGM; rw [hmk]; exact ih _

/-- Inverting a successful `init_bus` check. -/
theorem stepGM_initBus_ok {g g' : GM} {vn : List Val} {nl nt : Nat}
    (h : stepGM g (.initBus vn nl nt) = .ok g') :
    vn.all (fun v => v.isFinite) = true ∧ g' = ⟨vn.length⟩ := by
  simp only [stepGM] at h
  split at h
  next hc => exact ⟨hc, by injection h with h; exact h.symm⟩
  next hc => exact absurd h (by simp)

/-- Inverting a successful `init_powerlines` check. -/
theorem stepGM_initPowerlines_ok {g g' : GM} {r x hl : List Val} {f t : List Nat}
    (h : stepGM g (.initPowerlines r x hl f t) = .ok g') :
    (r.all (fun v => v.isFinite) && x.all (fun v => v.isFinite) &&
     hl.all (fun v => v.isFinite) && f.all (fun b => decide (b < g.nbus)) &&
     t.all (fun b => decide (b < g.nbus))) = true ∧ g' = g := by
  simp only [stepGM] at h
  split at h
  next hc => exact ⟨hc, by injection h with h; exact h.symm⟩
  next hc => exact absurd h (by simp)

/-- Inverting a successful `init_shunt` check. -/
theorem stepGM_initShunt_ok {g g' : GM} {p q : List Val} {b : List Nat}
    (h : stepGM g (.initShunt p q b) = .ok g') :
    (p.all (fun v => v.isFinite) && q.all (fun v => v.isFinite) &&
     b.all (fun c => decide (c < g.nbus))) = true ∧ g' = g := by
  simp only [stepGM] at h
  split at h
  next hc => exact ⟨hc, by injection h with h; exact h.symm⟩
  next hc => exact absurd h (by simp)

/-- Inverting a successful `init_trafo` check. -/
theorem stepGM_initTrafo_ok {g g' : GM} {r x b ts tp : List Val} {ih : List Bool}
    {hv lv : List Nat}
    (h : stepGM g (.initTrafo r x b ts tp ih hv lv) = .ok g') :
    (r.all (fun v => v.isFinite) && x.all (fun v => v.isFinite) &&
     b.all (fun v => v.isFinite) && hv.all (fun c => decide (c < g.nbus)) &&
     lv.all (fun c => decide (c < g.nbus))) = true ∧ g' = g := by
  simp only [stepGM] at h
  split at h
  next hc => exact ⟨hc, by injection h with h; exact h.symm⟩
  next hc => exact absurd h (by simp)

/-- Inverting a successful `init_loads` check. -/
theorem stepGM_initLoads_ok {g g' : GM} {p q : List Val} {b : List Nat}
    (h : stepGM g (.initLoads p q b) = .ok g') :
    (p.all (fun v => v.isFinite) && q.all (fun v => v.isFinite) &&
     b.all (fun c => decide (c < g.nbus))) = true ∧ g' = g := by
  simp only [stepGM] at h
  split at h
  next hc => exact ⟨hc, by injection h with h; exact h.symm⟩
  next hc => exact absurd h (by simp)

/-- Inverting a successful `init_generators` check. -/
theorem stepGM_initGenerators_ok {g g' : GM} {p v mn mx : List Val} {b : List Nat}
    (h : stepGM g (.initGenerators p v mn mx b) = .ok g') :
    (p.all (fun w => w.isFinite) && v.all (fun w => w.isFinite) &&
     mn.all (fun w => w.isFinite) && mx.all (fun w => w.isFinite) &&
     b.all (fun c => decide (c < g.nbus))) = true ∧ g' = g := by
  simp only [stepGM] at h
  split at h
  next hc => exact ⟨hc, by injection h with h; exact h.symm⟩
  next hc => exact absurd h (by simp)

/-!
Inversion of `init`.
-/

/-- Shape of every successful `init` run: both pandas lookups succeeded,
and the trace is `baseOps` followed by one of the three slack-section
endings. -/
theorem init_ok_elim {conv : Converter} {net : PPNet} {ops : List ModelOp}
    (h : init conv net = .ok ops) :
    net.line.all (fun l =>
      decide (l.from_bus < net.bus.length) && decide (l.to_bus < net.bus.length)) = true ∧
    net.trafo.all (fun t => decide (t.lv_bus < net.bus.length)) = true ∧
    ((net.gen.any (fun g => g.slack) = true ∧
        ops = baseOps conv net ++
          [.changeVGen (npWhere (fun g => g.slack) net.gen)
              ((npWhere (fun g => g.slack) net.gen).map fun i =>
                (net.gen.getD i genDefault).vm_pu),
           .addGenSlackbus (npWhere (fun g => g.slack) net.gen)]) ∨
     (∃ eg egs, net.gen.any (fun g => g.slack) = false ∧ net.ext_grid = eg :: egs ∧
        net.gen.any (fun g => g.bus == eg.bus) = true ∧
        ops = baseOps conv net ++
          [.addGenSlackbus (npWhere (fun g => g.bus == eg.bus) net.gen)]) ∨
     (∃ eg egs, net.gen.any (fun g => g.slack) = false ∧ net.ext_grid = eg :: egs ∧
        net.gen.any (fun g => g.bus == eg.bus) = false ∧
        ops = baseOps conv net ++
          [fabricatedGenOp net eg, .addGenSlackbus [net.gen.length]])) := by
  unfold init at h
  split at h
  next hc1 => exact absurd h (by simp)
  next hc1 =>
    split at h
    next hc2 => exact absurd h (by simp)
    next hc2 =>
      refine ⟨by simpa using hc1, by simpa using hc2, ?_⟩
      split at h
      next hslack =>
        injection h with h
        exact Or.inl ⟨hslack, h.symm⟩
      next hslack =>
        have hslack' : net.gen.any (fun g => g.slack) = false := by
          simpa using hslack
        split at h
        next hext => exact absurd h (by simp)
        next eg egs hext =>
          split at h
          next hbus =>
            injection h with h
            exact Or.inr (Or.inl ⟨eg, egs, hslack', hext, hbus, h.symm⟩)
          next hbus =>
            injection h with h
            exact Or.inr (Or.inr ⟨eg, egs, hslack', hext, by simpa using hbus, h.symm⟩)

/-- The trace of every successful `init` run contains exactly one
`init_trafo` call, and its arguments are the converter outputs, the
repaired tap columns, the hv-side flags, and the raw bus columns. -/
theorem initTrafo_arg_eq {conv : Converter} {net : PPNet} {ops : List ModelOp}
    (h : init conv net = .ok ops) {r x b ts tp : List Val} {ihb : List Bool}
    {hv lv : List Nat}
    (hm : ModelOp.initTrafo r x b ts tp ihb hv lv ∈ ops) :
    r = (trafoParams conv net).1 ∧ x = (trafoParams conv net).2.1 ∧
    b = (trafoParams conv net).2.2 ∧
    ts = net.trafo.map (fun t => repairTap t.tap_step_percent) ∧
    tp = net.trafo.map (fun t => repairTap t.tap_pos) ∧
    ihb = isTapHvSide net ∧
    hv = net.trafo.map (fun t => t.hv_bus) ∧
    lv = net.trafo.map (fun t => t.lv_bus) := by
  rcases init_ok_elim h with ⟨-, -, hcase⟩
  have hbase : ModelOp.initTrafo r x b ts tp ihb hv lv ∈ baseOps conv net := by
    rcases hcase with ⟨-, rfl⟩ | ⟨eg, egs, -, -, -, rfl⟩ | ⟨eg, egs, -, -, -, rfl⟩ <;>
      rcases List.mem_append.1 hm with h' | h' <;>
      first
        | exact h'
        | simp [fabricatedGenOp] at h'
  clear hcase hm h
  unfold baseOps at hbase
  simp only [deacts, List.mem_append, List.mem_cons, List.not_mem_nil, or_false,
    false_or] at hbase
  casesm* _ ∨ _
  all_goals
    first
      | (rename_i hmem; rcases mem_deactsAux hmem with ⟨j, hj⟩; cases hj)
      | simp_all [ModelOp.initTrafo.injEq]

/-- The slack-section tail of every successful `init` run contains no
deactivation call: all deactivations happen inside `baseOps`, right after
their table's initialization call. -/
theorem init_ok_tail {conv : Converter} {net : PPNet} {ops : List ModelOp}
    (h : init conv net = .ok ops) :
    ∃ tail, ops = baseOps conv net ++ tail ∧ ∀ op ∈ tail, op.isDeactivate = false := by
  rcases init_ok_elim h with ⟨-, -, hcase⟩
  rcases hcase with ⟨-, rfl⟩ | ⟨eg, egs, -, -, -, rfl⟩ | ⟨eg, egs, -, -, -, rfl⟩
  · exact ⟨_, rfl, by intro op hop; rcases List.mem_cons.1 hop with rfl | hop <;>
      simp_all [ModelOp.isDeactivate]⟩
  · exact ⟨_, rfl, by intro op hop; rcases List.mem_cons.1 hop with rfl | hop <;>
      simp_all [ModelOp.isDeactivate]⟩
  · refine ⟨_, rfl, ?_⟩
    intro op hop
    rcases List.mem_cons.1 hop with rfl | hop
    · simp [fabricatedGenOp, ModelOp.isDeactivate]
    · rcases List.mem_cons.1 hop with rfl | hop <;> simp_all [ModelOp.isDeactivate]

/-- A `deactivate_powerline` call appears in a successful `init` trace
exactly for the out-of-service powerline positions. -/
theorem deactPowerline_mem_iff {conv : Converter} {net : PPNet} {ops : List ModelOp}
    (h : init conv net = .ok ops) (i : Nat) :
    ModelOp.deactivatePowerline i ∈ ops ↔
      ∃ hi : i < net.line.length, (net.line.get ⟨i, hi⟩).in_service = false := by
  rcases init_ok_tail h with ⟨tail, rfl, htail⟩
  constructor
  · intro hm
    rcases List.mem_append.1 hm with hm | hm
    swap
    · exact absurd (htail _ hm) (by simp [ModelOp.isDeactivate])
    unfold baseOps at hm
    simp only [deacts, List.mem_append, List.mem_cons, List.not_mem_nil, or_false,
      false_or] at hm
    casesm* _ ∨ _
    all_goals
      first
        | (simp_all; done)
        | (rename_i hmem
           first
             | (rcases (mem_deactsAux_iff fun hh => ModelOp.deactivatePowerline.inj hh).1 hmem
                  with ⟨k, hk, hal, hik⟩
                obtain rfl : k = i := by omega
                exact ⟨hk, hal⟩)
             | (rcases mem_deactsAux hmem with ⟨j, hj⟩; cases hj))
  · rintro ⟨hi, hal⟩
    refine List.mem_append.2 (Or.inl ?_)
    have hmem : ModelOp.deactivatePowerline i ∈
        deacts ModelOp.deactivatePowerline (fun l : LineRow => l.in_service) net.line :=
      (mem_deactsAux_iff fun hh => ModelOp.deactivatePowerline.inj hh).2
        ⟨i, hi, hal, by omega⟩
    unfold baseOps
    simp only [List.mem_append]
    tauto

/-- A `deactivate_shunt` call appears in a successful `init` trace
exactly for the out-of-service shunt positions. -/
theorem deactShunt_mem_iff {conv : Converter} {net : PPNet} {ops : List ModelOp}
    (h : init conv net = .ok ops) (i : Nat) :
    ModelOp.deactivateShunt i ∈ ops ↔
      ∃ hi : i < net.shunt.length, (net.shunt.get ⟨i, hi⟩).in_service = false := by
  rcases init_ok_tail h with ⟨tail, rfl, htail⟩
  constructor
  · intro hm
    rcases List.mem_append.1 hm with hm | hm
    swap
    · exact absurd (htail _ hm) (by simp [ModelOp.isDeactivate])
    unfold baseOps at hm
    simp only [deacts, List.mem_append, List.mem_cons, List.not_mem_nil, or_false,
      false_or] at hm
    casesm* _ ∨ _
    all_goals
      first
        | (simp_all; done)
        | (rename_i hmem
           first
             | (rcases (mem_deactsAux_iff fun hh => ModelOp.deactivateShunt.inj hh).1 hmem
                  with ⟨k, hk, hal, hik⟩
                obtain rfl : k = i := by omega
                exact ⟨hk, hal⟩)
             | (rcases mem_deactsAux hmem with ⟨j, hj⟩; cases hj))
  · rintro ⟨hi, hal⟩
    refine List.mem_append.2 (Or.inl ?_)
    have hmem : ModelOp.deactivateShunt i ∈
        deacts ModelOp.deactivateShunt (fun s : ShuntRow => s.in_service) net.shunt :=
      (mem_deactsAux_iff fun hh => ModelOp.deactivateShunt.inj hh).2
        ⟨i, hi, hal, by omega⟩
    unfold baseOps
    simp only [List.mem_append]
    tauto

/-- A `deactivate_trafo` call appears in a successful `init` trace
exactly for the out-of-service transformer positions. -/
theorem deactTrafo_mem_iff {conv : Converter} {net : PPNet} {ops : List ModelOp}
    (h : init conv net = .ok ops) (i : Nat) :
    ModelOp.deactivateTrafo i ∈ ops ↔
      ∃ hi : i < net.trafo.length, (net.trafo.get ⟨i, hi⟩).in_service = false := by
  rcases init_ok_tail h with ⟨tail, rfl, htail⟩
  constructor
  · intro hm
    rcases List.mem_append.1 hm with hm | hm
    swap
    · exact absurd (htail _ hm) (by simp [ModelOp.isDeactivate])
    unfold baseOps at hm
    simp only [deacts, List.mem_append, List.mem_cons, List.not_mem_nil, or_false,
      false_or] at hm
    casesm* _ ∨ _
    all_goals
      first
        | (simp_all; done)
        | (rename_i hmem
           first
             | (rcases (mem_deactsAux_iff fun hh => ModelOp.deactivateTrafo.inj hh).1 hmem
                  with ⟨k, hk, hal, hik⟩
                obtain rfl : k = i := by omega
                exact ⟨hk, hal⟩)
             | (rcases mem_deactsAux hmem with ⟨j, hj⟩; cases hj))
  · rintro ⟨hi, hal⟩
    refine List.mem_append.2 (Or.inl ?_)
    have hmem : ModelOp.deactivateTrafo i ∈
        deacts ModelOp.deactivateTrafo (fun t : TrafoRow => t.in_service) net.trafo :=
      (mem_deactsAux_iff fun hh => ModelOp.deactivateTrafo.inj hh).2
        ⟨i, hi, hal, by omega⟩
    unfold baseOps
    simp only [List.mem_append]
    tauto

/-- A `deactivate_load` call appears in a successful `init` trace exactly
for the out-of-service load positions. -/
theorem deactLoad_mem_iff {conv : Converter} {net : PPNet} {ops : List ModelOp}
    (h : init conv net = .ok ops) (i : Nat) :
    ModelOp.deactivateLoad i ∈ ops ↔
      ∃ hi : i < net.load.length, (net.load.get ⟨i, hi⟩).in_service = false := by
  rcases init_ok_tail h with ⟨tail, rfl, htail⟩
  constructor
  · intro hm
    rcases List.mem_append.1 hm with hm | hm
    swap
    · exact absurd (htail _ hm) (by simp [ModelOp.isDeactivate])
    unfold baseOps at hm
    simp only [deacts, List.mem_append, List.mem_cons, List.not_mem_nil, or_false,
      false_or] at hm
    casesm* _ ∨ _
    all_goals
      first
        | (simp_all; done)
        | (rename_i hmem
           first
             | (rcases (mem_deactsAux_iff fun hh => ModelOp.deactivateLoad.inj hh).1 hmem
                  with ⟨k, hk, hal, hik⟩
                obtain rfl : k = i := by omega
                exact ⟨hk, hal⟩)
             | (rcases mem_deactsAux hmem with ⟨j, hj⟩; cases hj))
  · rintro ⟨hi, hal⟩
    refine List.mem_append.2 (Or.inl ?_)
    have hmem : ModelOp.deactivateLoad i ∈
        deacts ModelOp.deactivateLoad (fun l : LoadRow => l.in_service) net.load :=
      (mem_deactsAux_iff fun hh => ModelOp.deactivateLoad.inj hh).2
        ⟨i, hi, hal, by omega⟩
    unfold baseOps
    simp only [List.mem_append]
    tauto

/-- A `deactivate_gen` call appears in a successful `init` trace exactly
for the out-of-service generator positions. -/
theorem deactGen_mem_iff {conv : Converter} {net : PPNet} {ops : List ModelOp}
    (h : init conv net = .ok ops) (i : Nat) :
    ModelOp.deactivateGen i ∈ ops ↔
      ∃ hi : i < net.gen.length, (net.gen.get ⟨i, hi⟩).in_service = false := by
  rcases init_ok_tail h with ⟨tail, rfl, htail⟩
  constructor
  · intro hm
    rcases List.mem_append.1 hm with hm | hm
    swap
    · exact absurd (htail _ hm) (by simp [ModelOp.isDeactivate])
    unfold baseOps at hm
    simp only [deacts, List.mem_append, List.mem_cons, List.not_mem_nil, or_false,
      false_or] at hm
    casesm* _ ∨ _
    all_goals
      first
        | (simp_all; done)
        | (rename_i hmem
           first
             | (rcases (mem_deactsAux_iff fun hh => ModelOp.deactivateGen.inj hh).1 hmem
                  with ⟨k, hk, hal, hik⟩
                obtain rfl : k = i := by omega
                exact ⟨hk, hal⟩)
             | (rcases mem_deactsAux hmem with ⟨j, hj⟩; cases hj))
  · rintro ⟨hi, hal⟩
    refine List.mem_append.2 (Or.inl ?_)
    have hmem : ModelOp.deactivateGen i ∈
        deacts ModelOp.deactivateGen (fun g : GenRow => g.in_service) net.gen :=
      (mem_deactsAux_iff fun hh => ModelOp.deactivateGen.inj hh).2
        ⟨i, hi, hal, by omega⟩
    unfold baseOps
    simp only [List.mem_append]
    tauto

/-!
Claim theorems for Part A.
-/

/-- C1: for every pandapower network in which no generator has its slack
flag set and no generator sits on the bus of the first `ext_grid` entry,
`init` fabricates one synthetic slack generator at that ext_grid bus —
re-sending the generator table with one appended entry whose active power
is `sum(load.p_mw) - sum(gen.p_mw)`, whose voltage setpoint is the
ext_grid's `vm_pu`, and whose reactive limits are `-999999` and `+99999`
— and registers that appended generator (position `len(gen)`) as the
model's slack. -/
theorem claim_C1 (conv : Converter) (net : PPNet) (ops : List ModelOp)
    (eg : ExtGridRow) (egs : List ExtGridRow)
    (hslack : net.gen.any (fun g => g.slack) = false)
    (hext : net.ext_grid = eg :: egs)
    (hnogen : net.gen.any (fun g => g.bus == eg.bus) = false)
    (h : init conv net = .ok ops) :
    ops = baseOps conv net ++
      [ModelOp.initGenerators
          (net.gen.map (fun g => g.p_mw) ++
            [Val.sub (Val.sum (net.load.map fun l => l.p_mw))
              (Val.sum (net.gen.map fun g => g.p_mw))])
          (net.gen.map (fun g => g.vm_pu) ++ [eg.vm_pu])
          (net.gen.map (fun g => g.min_q_mvar) ++ [Val.fin (-999999)])
          (net.gen.map (fun g => g.max_q_mvar) ++ [Val.fin 99999])
          (net.gen.map (fun g => g.bus) ++ [eg.bus]),
       ModelOp.addGenSlackbus [net.gen.length]] := by
  rcases init_ok_elim h with ⟨-, -, hcase⟩
  rcases hcase with ⟨hs, -⟩ | ⟨eg', egs', hs, hext', hb, rfl⟩ |
    ⟨eg', egs', hs, hext', hb, rfl⟩
  · rw [hslack] at hs; cases hs
  · rw [hext] at hext'
    injection hext' with h1 h2
    subst h1
    rw [hnogen] at hb
    cases hb
  · rw [hext] at hext'
    injection hext' with h1 h2
    subst h1
    simp [fabricatedGenOp]

/-- Witness for C1 at the concrete network `wNet1` (one bus, one 5 MW
load, no generators, one ext_grid row). -/
theorem claim_C1_witness :
    wOps1 = baseOps cId wNet1 ++
      [ModelOp.initGenerators
          [Val.sub (Val.sum [Val.fin 5]) (Val.sum [])]
          [Val.fin 1] [Val.fin (-999999)] [Val.fin 99999] [0],
       ModelOp.addGenSlackbus [0]] :=
  claim_C1 cId wNet1 wOps1 ⟨0, Val.fin 1⟩ [] rfl rfl rfl rfl

/-- C4: the `init_trafo` call of every successful `init` run receives the
tap columns with non-finite entries replaced by exactly `0.0`, and every
other argument unchanged — the raw `hv_bus`/`lv_bus` columns and the
converter outputs computed from the unmodified nameplate columns. -/
theorem claim_C4 (conv : Converter) (net : PPNet) (ops : List ModelOp)
    (r x b ts tp : List Val) (ihb : List Bool) (hv lv : List Nat)
    (h : init conv net = .ok ops)
    (hm : ModelOp.initTrafo r x b ts tp ihb hv lv ∈ ops) :
    r = (trafoParams conv net).1 ∧ x = (trafoParams conv net).2.1 ∧
    b = (trafoParams conv net).2.2 ∧
    ts = net.trafo.map (fun t => repairTap t.tap_step_percent) ∧
    tp = net.trafo.map (fun t => repairTap t.tap_pos) ∧
    hv = net.trafo.map (fun t => t.hv_bus) ∧
    lv = net.trafo.map (fun t => t.lv_bus) := by
  rcases initTrafo_arg_eq h hm with ⟨h1, h2, h3, h4, h5, -, h7, h8⟩
  exact ⟨h1, h2, h3, h4, h5, h7, h8⟩

/-- Witness for C4 at the concrete network `wNetT`, whose single
transformer has NaN tap parameters: the tap columns become `[0.0]` and
the other arguments are forwarded unchanged. -/
theorem claim_C4_witness :
    (trafoParams cId wNetT).1 = (trafoParams cId wNetT).1 ∧
    (trafoParams cId wNetT).2.1 = (trafoParams cId wNetT).2.1 ∧
    (trafoParams cId wNetT).2.2 = (trafoParams cId wNetT).2.2 ∧
    [Val.fin 0] = wNetT.trafo.map (fun t => repairTap t.tap_step_percent) ∧
    [Val.fin 0] = wNetT.trafo.map (fun t => repairTap t.tap_pos) ∧
    [0] = wNetT.trafo.map (fun t => t.hv_bus) ∧
    [0] = wNetT.trafo.map (fun t => t.lv_bus) :=
  claim_C4 cId wNetT wOpsT (trafoParams cId wNetT).1 (trafoParams cId wNetT).2.1
    (trafoParams cId wNetT).2.2 [Val.fin 0] [Val.fin 0] [false] [0] [0] rfl
    (by simp [wOpsT, baseOps, wNetT, wTrafo, repairTap, Val.isFinite, isTapHvSide,
      deacts, deactsAux])

/-- C9: the tap-side override of line 107 can never change an entry —
because `tap_pos` is repaired before the mask `~np.isfinite(tap_pos)` is
evaluated, the `is_tap_hv_side` array passed to `init_trafo` equals
elementwise `tap_side == "hv"` for every transformer, including those
whose original `tap_pos` was non-finite. -/
theorem claim_C9 (conv : Converter) (net : PPNet) (ops : List ModelOp)
    (r x b ts tp : List Val) (ihb : List Bool) (hv lv : List Nat)
    (h : init conv net = .ok ops)
    (hm : ModelOp.initTrafo r x b ts tp ihb hv lv ∈ ops) :
    ihb = net.trafo.map (fun t => t.tap_side == "hv") := by
  rcases initTrafo_arg_eq h hm with ⟨-, -, -, -, -, hih, -, -⟩
  rw [hih, isTapHvSide_eq]

/-- Witness for C9 at `wNetT`: the transformer's original `tap_pos` is
NaN and its tap side is "lv", yet the flag passed is `false`, i.e.
`tap_side == "hv"`. -/
theorem claim_C9_witness :
    [false] = wNetT.trafo.map (fun t => t.tap_side == "hv") :=
  claim_C9 cId wNetT wOpsT (trafoParams cId wNetT).1 (trafoParams cId wNetT).2.1
    (trafoParams cId wNetT).2.2 [Val.fin 0] [Val.fin 0] [false] [0] [0] rfl
    (by simp [wOpsT, baseOps, wNetT, wTrafo, repairTap, Val.isFinite, isTapHvSide,
      deacts, deactsAux])

/-- C6: every successful `init` run first initializes each element table
in full at positional indices (the `baseOps` prefix, whose `init_*` call
for each table carries the whole column) and only afterwards deactivates;
the trailing slack section contains no deactivation, and a `deactivate_*`
call appears for exactly the positions whose `in_service` flag is false —
so indexing is identical regardless of activation state. -/
theorem claim_C6 (conv : Converter) (net : PPNet) (ops : List ModelOp)
    (h : init conv net = .ok ops) :
    (∃ tail, ops = baseOps conv net ++ tail ∧ ∀ op ∈ tail, op.isDeactivate = false) ∧
    (∀ i, ModelOp.deactivatePowerline i ∈ ops ↔
      ∃ hi : i < net.line.length, (net.line.get ⟨i, hi⟩).in_service = false) ∧
    (∀ i, ModelOp.deactivateShunt i ∈ ops ↔
      ∃ hi : i < net.shunt.length, (net.shunt.get ⟨i, hi⟩).in_service = false) ∧
    (∀ i, ModelOp.deactivateTrafo i ∈ ops ↔
      ∃ hi : i < net.trafo.length, (net.trafo.get ⟨i, hi⟩).in_service = false) ∧
    (∀ i, ModelOp.deactivateLoad i ∈ ops ↔
      ∃ hi : i < net.load.length, (net.load.get ⟨i, hi⟩).in_service = false) ∧
    (∀ i, ModelOp.deactivateGen i ∈ ops ↔
      ∃ hi : i < net.gen.length, (net.gen.get ⟨i, hi⟩).in_service = false) :=
  ⟨init_ok_tail h, fun i => deactPowerline_mem_iff h i, fun i => deactShunt_mem_iff h i,
   fun i => deactTrafo_mem_iff h i, fun i => deactLoad_mem_iff h i,
   fun i => deactGen_mem_iff h i⟩

/-- Witness for C6 at the concrete network `wNetT`. -/
theorem claim_C6_witness :
    ∃ tail, wOpsT = baseOps cId wNetT ++ tail ∧
      ∀ op ∈ tail, op.isDeactivate = false :=
  (claim_C6 cId wNetT wOpsT rfl).1

/-- Counterexample to C7 as stated: on the concrete network `wNetC7`,
whose two generators both carry the slack flag, `init` succeeds and calls
`add_gen_slackbus` with the two-element index array `np.where(slack)[0] =
[0, 1]`, not with a single generator identifier. -/
theorem claim_C7_counterexample :
    init cId wNetC7 =
      .ok (baseOps cId wNetC7 ++
        [ModelOp.changeVGen [0, 1] [Val.fin 1, Val.fin 1],
         ModelOp.addGenSlackbus [0, 1]]) ∧
    ([0, 1] : List Nat).length ≠ 1 :=
  ⟨rfl, by decide⟩

/-- C7 (amended): every successful `init` run ends with exactly one
`add_gen_slackbus` call, whose argument is the array of all slack-flagged
generator positions when any exist (otherwise all generators on the first
ext_grid bus, otherwise the single fabricated generator); that argument
is a single identifier when exactly one generator carries the slack flag,
but is longer when several do. -/
theorem claim_C7_amended (conv : Converter) (net : PPNet) (ops : List ModelOp)
    (h : init conv net = .ok ops) :
    (∃ pre, ops = pre ++ [ModelOp.addGenSlackbus (expectedSlackIds net)]) ∧
    (net.gen.countP (fun g => g.slack) = 1 → (expectedSlackIds net).length = 1) := by
  constructor
  · rcases init_ok_elim h with ⟨-, -, hcase⟩
    rcases hcase with ⟨hs, rfl⟩ | ⟨eg, egs, hs, hext, hb, rfl⟩ |
      ⟨eg, egs, hs, hext, hb, rfl⟩
    · refine ⟨baseOps conv net ++
        [.changeVGen (npWhere (fun g => g.slack) net.gen)
          ((npWhere (fun g => g.slack) net.gen).map fun i =>
            (net.gen.getD i genDefault).vm_pu)], ?_⟩
      simp [expectedSlackIds, hs]
    · refine ⟨baseOps conv net, ?_⟩
      simp [expectedSlackIds, hs, hext, hb]
    · refine ⟨baseOps conv net ++ [fabricatedGenOp net eg], ?_⟩
      simp [expectedSlackIds, hs, hext, hb]
  · intro hcount
    unfold expectedSlackIds
    split
    next hs => rw [npWhere_length]; exact hcount
    next hs =>
      exfalso
      have h0 : net.gen.countP (fun g => g.slack) = 0 :=
        List.countP_eq_zero.2 (by
          intro a ha
          have hfa := List.any_eq_false.1 (by simpa using hs) a ha
          simpa using hfa)
      omega

/-- Witness for the amended C7 at the concrete network `wNetT`
(no slack flag, no generator on the ext_grid bus): the registered
identifier list is the fabricated generator's position. -/
theorem claim_C7_amended_witness :
    (∃ pre, wOpsT = pre ++ [ModelOp.addGenSlackbus (expectedSlackIds wNetT)]) ∧
    (wNetT.gen.countP (fun g => g.slack) = 1 →
      (expectedSlackIds wNetT).length = 1) :=
  claim_C7_amended cId wNetT wOpsT rfl

/-- The witness converter `cId` keeps outputs positionally aligned and
propagates non-finiteness on line parameters. -/
theorem cId_linePropagates : LinePropagates cId := by
  intro rl xl cl gl vf vt hx hc hg
  refine ⟨⟨rfl, hx, ?_⟩, ?_⟩
  · simp [cId, List.length_zipWith, hc, hg]
  · intro i hi h1 h2 h3
    have hci : i < cl.length := by omega
    have hgi : i < gl.length := by omega
    rw [show (cId.get_line_param rl xl cl gl vf vt).2.2 = List.zipWith Val.add cl gl
        from rfl] at h3
    rw [getD_zipWith_lt hci hgi (Val.fin 0) (Val.fin 0) (Val.fin 0)] at h3
    rcases Val.isFinite_of_add h3 with ⟨hcf, hgf⟩
    exact ⟨h1, h2, hcf, hgf⟩

/-- The witness converter `cId` keeps outputs positionally aligned and
propagates non-finiteness on transformer parameters. -/
theorem cId_trafoPropagates : TrafoPropagates cId := by
  intro vh vl vk vkr sn pfe i0 vn hvl hvk hvkr hsn hpfe hi0
  refine ⟨⟨hvk, hvkr, ?_⟩, ?_⟩
  · simp [cId, List.length_zipWith, hvl, hsn, hpfe, hi0]
  · intro i hi h1 h2 h3
    have hvli : i < vl.length := by omega
    have hsni : i < sn.length := by omega
    have hpfei : i < pfe.length := by omega
    have hi0i : i < i0.length := by omega
    have hrest2 : i < (List.zipWith Val.add pfe i0).length := by
      simp [List.length_zipWith]; omega
    have hrest1 : i < (List.zipWith Val.add sn (List.zipWith Val.add pfe i0)).length := by
      simp [List.length_zipWith]; omega
    have hrest0 : i < (List.zipWith Val.add vl
        (List.zipWith Val.add sn (List.zipWith Val.add pfe i0))).length := by
      simp [List.length_zipWith]; omega
    rw [show (cId.get_trafo_param vh vl vk vkr sn pfe i0 vn).2.2 =
        List.zipWith Val.add vh (List.zipWith Val.add vl
          (List.zipWith Val.add sn (List.zipWith Val.add pfe i0))) from rfl] at h3
    rw [getD_zipWith_lt hi hrest0 (Val.fin 0) (Val.fin 0) (Val.fin 0)] at h3
    rcases Val.isFinite_of_add h3 with ⟨hvhf, h3⟩
    rw [getD_zipWith_lt hvli hrest1 (Val.fin 0) (Val.fin 0) (Val.fin 0)] at h3
    rcases Val.isFinite_of_add h3 with ⟨hvlf, h3⟩
    rw [getD_zipWith_lt hsni hrest2 (Val.fin 0) (Val.fin 0) (Val.fin 0)] at h3
    rcases Val.isFinite_of_add h3 with ⟨hsnf, h3⟩
    rw [getD_zipWith_lt hpfei hi0i (Val.fin 0) (Val.fin 0) (Val.fin 0)] at h3
    rcases Val.isFinite_of_add h3 with ⟨hpfef, hi0f⟩
    exact ⟨hvhf, hvlf, h1, h2, hsnf, hpfef, hi0f⟩

/-- When the modelled build pipeline returns a model, the input network
was not malformed: every structural check of the replay passed, and via
the converter alignment properties this forces every required parameter
finite and every branch endpoint in range. -/
theorem buildOk_not_malformed {conv : Converter} (hl : LinePropagates conv)
    (ht : TrafoPropagates conv) {net : PPNet} {m : GM}
    (h : buildModel conv net = .ok m) : net.malformed = false := by
  unfold buildModel at h
  cases hinit : init conv net with
  | error e => rw [hinit] at h; cases h
  | ok ops =>
    rw [hinit] at h
    rcases init_ok_elim hinit with ⟨hlineRef, htrafoRef, hcase⟩
    have hops : ∃ tail, ops = baseOps conv net ++ tail := by
      rcases hcase with ⟨-, rfl⟩ | ⟨_, _, -, -, -, rfl⟩ | ⟨_, _, -, -, -, rfl⟩ <;>
        exact ⟨_, rfl⟩
    rcases hops with ⟨tail, rfl⟩
    unfold baseOps at h
    simp only [List.append_assoc, List.cons_append, List.nil_append] at h
    rcases runGM_cons_ok h with ⟨g1, hstep1, h⟩
    rcases stepGM_initBus_ok hstep1 with ⟨hbusFin, rfl⟩
    rcases runGM_cons_ok h with ⟨g2, hstep2, h⟩
    rcases stepGM_initPowerlines_ok hstep2 with ⟨hlineChk, rfl⟩
    rcases runGM_append_ok h with ⟨g3, hd1, h⟩
    rw [show (deacts ModelOp.deactivatePowerline
        (fun l : LineRow => l.in_service) net.line) =
        deactsAux ModelOp.deactivatePowerline
          (fun l : LineRow => l.in_service) 0 net.line from rfl,
      runGM_deactsAux _ ModelOp.deactivatePowerline (fun l : LineRow => l.in_service)
        (fun g' j => rfl) 0 net.line] at hd1
    injection hd1 with hd1
    subst hd1
    rcases runGM_cons_ok h with ⟨g4, hstep3, h⟩
    rcases stepGM_initShunt_ok hstep3 with ⟨hshuntChk, rfl⟩
    rcases runGM_append_ok h with ⟨g5, hd2, h⟩
    rw [show (deacts ModelOp.deactivateShunt
        (fun s : ShuntRow => s.in_service) net.shunt) =
        deactsAux ModelOp.deactivateShunt
          (fun s : ShuntRow => s.in_service) 0 net.shunt from rfl,
      runGM_deactsAux _ ModelOp.deactivateShunt (fun s : ShuntRow => s.in_service)
        (fun g' j => rfl) 0 net.shunt] at hd2
    injection hd2 with hd2
    subst hd2
    rcases runGM_cons_ok h with ⟨g6, hstep4, h⟩
    rcases stepGM_initTrafo_ok hstep4 with ⟨htrafoChk, rfl⟩
    rcases runGM_append_ok h with ⟨g7, hd3, h⟩
    rw [show (deacts ModelOp.deactivateTrafo
        (fun t : TrafoRow => t.in_service) net.trafo) =
        deactsAux ModelOp.deactivateTrafo
          (fun t : TrafoRow => t.in_service) 0 net.trafo from rfl,
      runGM_deactsAux _ ModelOp.deactivateTrafo (fun t : TrafoRow => t.in_service)
        (fun g' j => rfl) 0 net.trafo] at hd3
    injection hd3 with hd3
    subst hd3
    rcases runGM_cons_ok h with ⟨g8, hstep5, h⟩
    rcases stepGM_initLoads_ok hstep5 with ⟨hloadChk, rfl⟩
    rcases runGM_append_ok h with ⟨g9, hd4, h⟩
    rw [show (deacts ModelOp.deactivateLoad
        (fun l : LoadRow => l.in_service) net.load) =
        deactsAux ModelOp.deactivateLoad
          (fun l : LoadRow => l.in_service) 0 net.load from rfl,
      runGM_deactsAux _ ModelOp.deactivateLoad (fun l : LoadRow => l.in_service)
        (fun g' j => rfl) 0 net.load] at hd4
    injection hd4 with hd4
    subst hd4
    rcases runGM_cons_ok h with ⟨g10, hstep6, h⟩
    rcases stepGM_initGenerators_ok hstep6 with ⟨hgenChk, rfl⟩
    -- All replay checks are in hand; now refute each malformedness source.
    have hnbus : (net.bus.map fun b => b.vn_kv).length = net.bus.length :=
      List.length_map _ _
    unfold lineParams at hlineChk
    unfold trafoParams at htrafoChk
    simp only [Bool.and_eq_true] at hlineChk hshuntChk htrafoChk hloadChk hgenChk
    obtain ⟨⟨⟨⟨hra, hxa⟩, hha⟩, hfa⟩, hta⟩ := hlineChk
    obtain ⟨⟨hspa, hsqa⟩, -⟩ := hshuntChk
    obtain ⟨⟨⟨⟨htra, htxa⟩, htba⟩, thva⟩, tlva⟩ := htrafoChk
    obtain ⟨⟨hlpa, hlqa⟩, -⟩ := hloadChk
    obtain ⟨⟨⟨⟨hgpa, hgva⟩, hgmna⟩, hgmxa⟩, -⟩ := hgenChk
    rcases hl (net.line.map fun l => Val.mul l.r_ohm_per_km l.length_km)
        (net.line.map fun l => Val.mul l.x_ohm_per_km l.length_km)
        (net.line.map fun l => Val.mul l.c_nf_per_km l.length_km)
        (net.line.map fun l => Val.mul l.g_us_per_km l.length_km)
        (net.line.map fun l => vnAt net l.from_bus)
        (net.line.map fun l => vnAt net l.to_bus)
        (by simp) (by simp) (by simp) with ⟨⟨hlen1, hlen2, hlen3⟩, hprop⟩
    rcases ht (net.trafo.map fun t => t.vn_hv_kv) (net.trafo.map fun t => t.vn_lv_kv)
        (net.trafo.map fun t => t.vk_percent) (net.trafo.map fun t => t.vkr_percent)
        (net.trafo.map fun t => t.sn_mva) (net.trafo.map fun t => t.pfe_kw)
        (net.trafo.map fun t => t.i0_percent) (net.trafo.map fun t => vnAt net t.lv_bus)
        (by simp) (by simp) (by simp) (by simp) (by simp) (by simp)
      with ⟨⟨htlen1, htlen2, htlen3⟩, htprop⟩
    clear h hinit hcase
    unfold PPNet.malformed
    simp only [Bool.or_eq_false_iff]
    refine ⟨⟨⟨⟨⟨?_, ?_⟩, ?_⟩, ?_⟩, ?_⟩, ?_⟩
    · refine List.any_eq_false.2 ?_
      intro b hb hbad
      have hfin := List.all_eq_true.1 hbusFin _ (List.mem_map_of_mem _ hb)
      simp only at hfin
      simp [hfin] at hbad
    · refine List.any_eq_false.2 ?_
      intro l0 hlmem hbad
      rcases List.mem_iff_getElem.1 hlmem with ⟨i, hi, rfl⟩
      have ho1 := all_getD hra (by rw [hlen1]; simpa using hi) (Val.fin 0)
      have ho2 := all_getD hxa (by rw [hlen2]; simpa using hi) (Val.fin 0)
      have ho3 := all_getD hha (by rw [hlen3]; simpa using hi) (Val.fin 0)
      rcases hprop i (by simpa using hi) ho1 ho2 ho3 with ⟨hrm, hxm, hcm, hgm⟩
      rw [getD_map_lt _ hi (Val.fin 0)] at hrm hxm hcm hgm
      rcases Val.isFinite_of_mul hrm with ⟨hrf, hlenf⟩
      rcases Val.isFinite_of_mul hxm with ⟨hxf, -⟩
      rcases Val.isFinite_of_mul hcm with ⟨hcf, -⟩
      rcases Val.isFinite_of_mul hgm with ⟨hgf, -⟩
      have href := List.all_eq_true.1 hlineRef _ hlmem
      simp only [Bool.and_eq_true, decide_eq_true_eq] at href
      simp only [List.get_eq_getElem] at hrf hxf hcf hgf hlenf
      simp [hrf, hxf, hcf, hgf, hlenf, href.1, href.2] at hbad
    · refine List.any_eq_false.2 ?_
      intro t0 htmem hbad
      rcases List.mem_iff_getElem.1 htmem with ⟨i, hi, rfl⟩
      have ho1 := all_getD htra (by rw [htlen1]; simpa using hi) (Val.fin 0)
      have ho2 := all_getD htxa (by rw [htlen2]; simpa using hi) (Val.fin 0)
      have ho3 := all_getD htba (by rw [htlen3]; simpa using hi) (Val.fin 0)
      rcases htprop i (by simpa using hi) ho1 ho2 ho3 with
        ⟨hvh, hvl, hvk, hvkr, hsn, hpfe, hi0⟩
      rw [getD_map_lt _ hi (Val.fin 0)] at hvh hvl hvk hvkr hsn hpfe hi0
      have hhv := List.all_eq_true.1 thva _
        (List.mem_map_of_mem (fun t : TrafoRow => t.hv_bus) htmem)
      have hlv := List.all_eq_true.1 tlva _
        (List.mem_map_of_mem (fun t : TrafoRow => t.lv_bus) htmem)
      simp only [decide_eq_true_eq, hnbus] at hhv hlv
      simp only [List.get_eq_getElem] at hvh hvl hvk hvkr hsn hpfe hi0
      simp [hvh, hvl, hvk, hvkr, hsn, hpfe, hi0, hhv, hlv] at hbad
    · refine List.any_eq_false.2 ?_
      intro s hsmem hbad
      have h1 := List.all_eq_true.1 hspa _
        (List.mem_map_of_mem (fun s : ShuntRow => s.p_mw) hsmem)
      have h2 := List.all_eq_true.1 hsqa _
        (List.mem_map_of_mem (fun s : ShuntRow => s.q_mvar) hsmem)
      simp only at h1 h2
      simp [h1, h2] at hbad
    · refine List.any_eq_false.2 ?_
      intro l hlmem2 hbad
      have h1 := List.all_eq_true.1 hlpa _
        (List.mem_map_of_mem (fun l : LoadRow => l.p_mw) hlmem2)
      have h2 := List.all_eq_true.1 hlqa _
        (List.mem_map_of_mem (fun l : LoadRow => l.q_mvar) hlmem2)
      simp only at h1 h2
      simp [h1, h2] at hbad
    · refine List.any_eq_false.2 ?_
      intro gr hgmem hbad
      have h1 := List.all_eq_true.1 hgpa _
        (List.mem_map_of_mem (fun g : GenRow => g.p_mw) hgmem)
      have h2 := List.all_eq_true.1 hgva _
        (List.mem_map_of_mem (fun g : GenRow => g.vm_pu) hgmem)
      have h3 := List.all_eq_true.1 hgmna _
        (List.mem_map_of_mem (fun g : GenRow => g.min_q_mvar) hgmem)
      have h4 := List.all_eq_true.1 hgmxa _
        (List.mem_map_of_mem (fun g : GenRow => g.max_q_mvar) hgmem)
      simp only at h1 h2 h3 h4
      simp [h1, h2, h3, h4] at hbad

/-- C3: for every malformed input network — one containing a non-finite
required parameter or a branch referencing a nonexistent bus — building
the model via `init` produces an error at build time instead of a model:
either the Python layer's pandas lookups raise, or the modelled C++
structural validation rejects the corresponding `init_*` call. -/
theorem claim_C3 (conv : Converter) (net : PPNet)
    (hl : LinePropagates conv) (ht : TrafoPropagates conv)
    (hm : net.malformed = true) :
    ∃ e, buildModel conv net = .error e := by
  cases hbm : buildModel conv net with
  | error e => exact ⟨e, rfl⟩
  | ok m => exact absurd (buildOk_not_malformed hl ht hbm) (by simp [hm])

/-- Witness for C3 at the concrete malformed network `wNetC3` (NaN load
active power): the build errors out. -/
theorem claim_C3_witness : ∃ e, buildModel cId wNetC3 = .error e :=
  claim_C3 cId wNetC3 cId_linePropagates cId_trafoPropagates (by decide)

/-!
Claim theorems for Part B.
-/

/-- C2: after a prior `runpp` call with `need_reset=True`, a call with
`need_reset=False` invokes the solver with an `Sbus` freshly recomputed
from `_pd2ppc` of the current network while the prior converged voltage
`self.V` is passed as the initial guess, and `reset()` is not called;
the prior `need_reset=True` call itself calls `reset()` and starts from
the freshly computed initial voltage `V0`. -/
theorem claim_C2 (beh : KLUBehavior) (st0 : KLUState) (net1 net2 : Dat)
    (opts1 opts2 : Options) (tr1 : List SolverEv) (st1 : KLUState)
    (hq : opts1.enforce_q_lims = false)
    (h1 : runpp beh st0 net1 opts1 true = (tr1, .ok st1)) :
    (∃ a1, tr1 = [SolverEv.reset, SolverEv.solve a1] ∧
       a1.v = Dat.v0Of (if opts1.init_va_degree == "dc" then
         Dat.runDcPf (Dat.pd2ppc net1) else Dat.pd2ppc net1) ∧
       SolverEv.reset ∈ tr1) ∧
    (∃ v1 a2 st2, st1.V = some v1 ∧
       runpp beh st1 net2 opts2 false = ([SolverEv.solve a2], .ok st2) ∧
       a2.v = v1 ∧ a2.sbus = Dat.getSbus (Dat.pd2ppc net2) ∧
       SolverEv.reset ∉ [SolverEv.solve a2]) := by
  unfold runpp at h1
  rw [hq] at h1
  simp only [if_true, Bool.false_eq_true, if_false, ite_true, ite_false,
    Prod.mk.injEq, Except.ok.injEq] at h1
  obtain ⟨htr, hst⟩ := h1
  subst htr
  subst hst
  exact ⟨⟨_, rfl, rfl, by simp⟩, _, _, _, rfl, rfl, rfl, rfl, by simp⟩

/-- Witness for C2 with the concrete behaviour `cBeh`, the fresh instance
state, and two distinct networks. -/
theorem claim_C2_witness :
    (∃ a1, [SolverEv.reset, SolverEv.solve wArgs1] =
        [SolverEv.reset, SolverEv.solve a1] ∧
       a1.v = Dat.v0Of (if wOpts.init_va_degree == "dc" then
         Dat.runDcPf (Dat.pd2ppc (Dat.inp 0)) else Dat.pd2ppc (Dat.inp 0)) ∧
       SolverEv.reset ∈ [SolverEv.reset, SolverEv.solve wArgs1]) ∧
    (∃ v1 a2 st2, wSt1.V = some v1 ∧
       runpp cBeh wSt1 (Dat.inp 6) wOpts false = ([SolverEv.solve a2], .ok st2) ∧
       a2.v = v1 ∧ a2.sbus = Dat.getSbus (Dat.pd2ppc (Dat.inp 6)) ∧
       SolverEv.reset ∉ [SolverEv.solve a2]) :=
  claim_C2 cBeh KLUState.initial (Dat.inp 0) (Dat.inp 6) wOpts wOpts
    [SolverEv.reset, SolverEv.solve wArgs1] wSt1 rfl rfl

/-- C5: for every input, `newtonpf` returns a well-formed 4-tuple
`(V, converged, iterations, J)` — never an exception — where `V` is
reconstructed as `Vm * exp(1j * Va)` from the solver's magnitude and
angle outputs, `converged` is the solver's boolean flag, and `iterations`
is the solver's iteration count. -/
theorem claim_C5 (beh : KLUBehavior) (world : Nat) (a : NpfArgs) (opts : Options) :
    newtonpf beh world a opts =
      .ok (Dat.polar (beh.vmOut 0 (npfSolveArgs a opts))
             (beh.vaOut 0 (npfSolveArgs a opts)),
           beh.convergedOut 0 (npfSolveArgs a opts),
           beh.nbIterOut 0 (npfSolveArgs a opts),
           beh.jOut 0 (npfSolveArgs a opts)) := rfl

/-- Counterexample to C8 as stated: at this concrete call with
`enforce_q_lims = true` but `need_reset=False`, `runpp` does not raise —
it returns a normal result and its trace contains a `solve` invocation,
because the `enforce_q_lims` check sits inside the `need_reset` branch. -/
theorem claim_C8_counterexample :
    wOptsQ.enforce_q_lims = true ∧
    runpp cBeh wSt (Dat.inp 0) wOptsQ false =
      ([SolverEv.solve
          { ybus := Dat.csc (Dat.inp 2), v := Dat.inp 1
            sbus := Dat.getSbus (Dat.pd2ppc (Dat.inp 0))
            pv := Dat.inp 3, pq := Dat.inp 4
            maxIt := wOptsQ.max_iteration, tol := wOptsQ.tolerance_mva }],
       .ok { solverInternal := 7, V := some (Dat.polar (Dat.inp 100) (Dat.inp 101))
             Ybus := some (Dat.csc (Dat.inp 2)), pv := some (Dat.inp 3)
             pq := some (Dat.inp 4), ppci := some (Dat.pd2ppc (Dat.inp 0)) }) :=
  ⟨rfl, rfl⟩

/-- C8 (amended): when `runpp` is called with `need_reset=True` and
reactive-limit enforcement requested, it raises `NotImplementedError`
before any solver invocation (the returned trace is empty); with
`need_reset=False` the check is bypassed. -/
theorem claim_C8_amended (beh : KLUBehavior) (st : KLUState) (net : Dat)
    (opts : Options) (h : opts.enforce_q_lims = true) :
    runpp beh st net opts true = ([], .error .notImplementedError) := by
  unfold runpp
  simp [h]

/-- Witness for the amended C8 at a concrete call. -/
theorem claim_C8_amended_witness :
    runpp cBeh wSt (Dat.inp 0) wOptsQ true = ([], .error .notImplementedError) :=
  claim_C8_amended cBeh wSt (Dat.inp 0) wOptsQ rfl

/-- C10: `newtonpf` is stateless across calls — it constructs a fresh
solver on every invocation and reads nothing but its arguments, so two
calls with equal inputs return equal results regardless of the ambient
mutable state (`world`) left behind by earlier calls. -/
theorem claim_C10 (beh : KLUBehavior) (w1 w2 : Nat) (a1 a2 : NpfArgs)
    (o1 o2 : Options) (ha : a1 = a2) (ho : o1 = o2) :
    newtonpf beh w1 a1 o1 = newtonpf beh w2 a2 o2 := by
  subst ha
  subst ho
  rfl

/-- Witness for C10: equal arguments under different ambient states give
the same result. -/
theorem claim_C10_witness :
    newtonpf cBeh 0 wNpfA wOpts = newtonpf cBeh 5 wNpfA wOpts :=
  claim_C10 cBeh 0 5 wNpfA wNpfA wOpts wOpts rfl rfl
